import Mathlib

/-!
Shallow embedding of the wallet / payment-reconciliation core of the
`airtime_backend` repository (FastAPI + MongoDB + Flutterwave), covering:

- `app/db/crud/wallet.py` (`WalletDB.get_by_user_id`, `WalletDB.update_balance`,
  `WalletDB.toggle_wallet_lock`),
- `app/db/crud/transactions.py` and `app/db/models/base.py` (`TransactionDB.get_by_reference`,
  `BaseDB.create`, `BaseDB.update`),
- `app/db/init_db.py` (`init_indexes`),
- `app/db/models/wallet.py` (`WalletModel`, `TransactionModel`, `TransactionType`,
  `TransactionStatus`),
- `app/services/payment_gateway.py` (`FlutterWaveClient`: webhook validation,
  payment/transfer webhook processors, success/failure handlers),
- `app/api/v1/wallet.py` (`fund_wallet`) and `app/api/v1/airtime.py` (`purchase_airtime`).

Modelling conventions:

- Monetary amounts are Python floats in the source; the operations performed on
  them are additions, subtractions and comparisons, modelled here over `Int`.
- MongoDB documents live in an explicit `Store`; `_id` values are `Nat`s handed
  out by a counter.  `update_one({"_id": i}, {"$set": ...})` is modelled as a map
  over the stored list replacing the document(s) with that id (Mongo `_id`s are
  unique, so at most one document is affected).
- Python exceptions are modelled by `PyError`; a state-changing call returns
  `Store × Except PyError α` so that the state at the moment an error surfaces
  stays observable.
- A MongoDB session transaction (`session.start_transaction`) rolls its writes
  back when the body raises; flows model this by resuming from the pre-session
  store on the error path.  Redis fanout publishes are not part of the session.
- Python `dict` payload fields accessed with `d["k"]` / `d.get("k")` are
  modelled as `Option` fields; a missing key accessed with `d["k"]` raises
  `PyError.keyError`.
- Python `Enum` member access `TransactionType.NAME.value` is dynamic attribute
  lookup; it is modelled by `TransactionType.attr`, which returns `none`
  (an `AttributeError` at runtime) for a member the enum does not declare.
-/

/-- `UpdateMode` enum from `app/db/crud/wallet.py`. -/
inductive UpdateMode where
  | add
  | subtract
deriving DecidableEq, Repr

/-- `WalletModel` from `app/db/models/wallet.py` (the `_id` field is `id`). -/
structure WalletModel where
  id : Nat
  user_id : String
  balance : Int
  currency : String
  is_locked : Bool
  is_active : Bool
deriving DecidableEq, Repr

/-- `TransactionModel` from `app/db/models/wallet.py` (the `_id` field is `id`;
`reference` is `Optional[str]`). -/
structure TransactionModel where
  id : Nat
  user_id : String
  wallet_id : String
  amount : Int
  currency : String
  type : String
  status : String
  reference : Option String
  timestamp : String
deriving DecidableEq, Repr

/-- The dict passed to `TransactionDB.create` (a `TransactionModel.model_dump()`
before Mongo assigns an `_id`). -/
structure TransactionInput where
  user_id : String
  wallet_id : String
  amount : Int
  currency : String
  type : String
  status : String
  reference : Option String
  timestamp : String
deriving DecidableEq, Repr

/-- A message published on the Redis fanout channel
(`websocket_publisher.publish_message` payload in `app/services/payment_gateway.py`). -/
structure FanoutMsg where
  status : String
  message : String
  tx_ref : Option String
  user_id : String
  amount : Int
  currency : String
deriving DecidableEq, Repr

/-- The durable world: the `wallets` and `transactions` Mongo collections, the
`_id` counter, and the list of fanout messages published so far. -/
structure Store where
  wallets : List WalletModel
  transactions : List TransactionModel
  next_id : Nat
  published : List FanoutMsg
deriving DecidableEq, Repr

/-- The Python exceptions raised by the modelled code
(`app/exceptions/types.py`, plus the built-in `KeyError` / `AttributeError`). -/
inductive PyError where
  | walletError (message : String)
  | objectNotFoundError (message : String)
  | objectAlreadyExistsError (message : String)
  | paymentFailedError (message : String) (user_id : String) (unlock_wallet : Bool)
  | airtimePurchaseError (message : String) (user_id : String) (unlock_wallet : Bool)
  | transactionError (message : String)
  | keyError (key : String)
  | attributeError (name : String)
  | typeError (message : String)
deriving DecidableEq, Repr

deriving instance DecidableEq for Except

/-- `TransactionStatus.PENDING.value` from `app/db/models/wallet.py`. -/
def TransactionStatus.pending : String := "pending"

/-- `TransactionStatus.SUCCESS.value` from `app/db/models/wallet.py`. -/
def TransactionStatus.success : String := "success"

/-- `TransactionStatus.FAILED.value` from `app/db/models/wallet.py`. -/
def TransactionStatus.failed : String := "failed"

/-- The members of the `TransactionType` enum in `app/db/models/wallet.py`:
`CREDIT = "credit"`, `DEBIT = "debit"`, `FUND = "fund"`, `WITHDRAW = "withdraw"`.
There is no `AIRTIME_PURCHASE` member. -/
def TransactionType.members : List (String × String) :=
  [("CREDIT", "credit"), ("DEBIT", "debit"), ("FUND", "fund"), ("WITHDRAW", "withdraw")]

/-- Dynamic attribute access `TransactionType.<name>.value`; `none` models the
`AttributeError` Python raises for a member the enum does not declare. -/
def TransactionType.attr (name : String) : Option String :=
  (TransactionType.members.find? (fun p => p.1 == name)).map (fun p => p.2)

/-- The unique indexes created by `init_indexes` in `app/db/init_db.py`:
`users.email` and `wallets.user_id` only. -/
def init_indexes_unique : List (String × String) :=
  [("users", "email"), ("wallets", "user_id")]

/-- `WalletDB.get_by_user_id` (`app/db/crud/wallet.py`):
`find_one({"user_id": user_id})` on the wallets collection. -/
def WalletDB.get_by_user_id (st : Store) (user_id : String) : Option WalletModel :=
  st.wallets.find? (fun w => w.user_id == user_id)

/-- `BaseDB.update` on the wallets collection:
`update_one({"_id": id}, {"$set": ...})` followed by reading the document back.
The whole replacement document is supplied by the caller. -/
def Store.setWalletById (st : Store) (id : Nat) (w' : WalletModel) : Store :=
  { st with wallets := st.wallets.map (fun w => if w.id == id then w' else w) }

/-- The new balance computed by `WalletDB.update_balance`:
`wallet.balance + amount if mode == UpdateMode.ADD else wallet.balance - amount`. -/
def WalletDB.new_balance (wallet : WalletModel) (amount : Int) (mode : UpdateMode) : Int :=
  match mode with
  | UpdateMode.add => wallet.balance + amount
  | UpdateMode.subtract => wallet.balance - amount

/-- `WalletDB.update_balance` (`app/db/crud/wallet.py` lines 81-115): look the
wallet up by user id, compute the new balance, raise `WalletError` if it would
be negative, otherwise `$set` only the `balance` field. -/
def WalletDB.update_balance (st : Store) (user_id : String) (amount : Int)
    (mode : UpdateMode) : Store × Except PyError WalletModel :=
  match WalletDB.get_by_user_id st user_id with
  | none => (st, Except.error (PyError.walletError "Wallet not found for user ID"))
  | some wallet =>
    let nb := WalletDB.new_balance wallet amount mode
    if nb < 0 then
      (st, Except.error (PyError.walletError "Insufficient balance for this operation"))
    else
      let w' := { wallet with balance := nb }
      (Store.setWalletById st wallet.id w', Except.ok w')

/-- `WalletDB.toggle_wallet_lock` (`app/db/crud/wallet.py` lines 117-139): look
the wallet up by user id and `$set` `is_locked` to the negation of the value
just read.  The method takes no `lock` argument: it always toggles. -/
def WalletDB.toggle_wallet_lock (st : Store) (user_id : String) :
    Store × Except PyError WalletModel :=
  match WalletDB.get_by_user_id st user_id with
  | none => (st, Except.error (PyError.walletError "Wallet not found for user ID"))
  | some wallet =>
    let w' := { wallet with is_locked := !wallet.is_locked }
    (Store.setWalletById st wallet.id w', Except.ok w')

/-- The call `toggle_wallet_lock(..., lock=...)` as written at the acquire and
release call sites (`app/api/v1/wallet.py` lines 130, 168, 200 and 452,
`app/api/v1/airtime.py` lines 95 and 155, `app/services/payment_gateway.py`
line 563, `app/exceptions/handlers.py` line 244): `toggle_wallet_lock`
declares no `lock` parameter, so CPython raises `TypeError` while binding the
arguments, before the method body runs — no wallet state is read or
written. -/
def WalletDB.toggle_wallet_lock_kw (st : Store) (_user_id : String) (_lock : Bool) :
    Store × Except PyError WalletModel :=
  (st, Except.error
    (PyError.typeError "toggle_wallet_lock got an unexpected keyword argument lock"))

/-- `TransactionDB.get_by_reference` (`app/db/crud/transactions.py`):
`find_one({"reference": reference})`. -/
def TransactionDB.get_by_reference (st : Store) (reference : String) :
    Option TransactionModel :=
  st.transactions.find? (fun t => t.reference == some reference)

/-- `TransactionDB.create`, which is the inherited `BaseDB.create`
(`app/db/models/base.py` lines 140-171): a plain `insert_one` that assigns a
fresh `_id`.  `TransactionDB` overrides no create logic and performs no
duplicate-reference check. -/
def TransactionDB.create (st : Store) (t : TransactionInput) :
    Store × TransactionModel :=
  let t' : TransactionModel :=
    { id := st.next_id, user_id := t.user_id, wallet_id := t.wallet_id,
      amount := t.amount, currency := t.currency, type := t.type,
      status := t.status, reference := t.reference, timestamp := t.timestamp }
  ({ st with transactions := st.transactions ++ [t'], next_id := st.next_id + 1 }, t')

/-- `transaction_db.update(id, {"status": s})`: the inherited `BaseDB.update`
specialised to the only transaction update the flows perform, a `$set` of the
`status` field on the document with the given `_id`. -/
def TransactionDB.update_status (st : Store) (id : Nat) (status : String) : Store :=
  { st with transactions :=
      st.transactions.map (fun t => if t.id == id then { t with status := status } else t) }

/-- `FlutterWaveClient.payment_event_types`: the default
`FLUTTERWAVE_PAYMENT_OPTIONS` (`app/core/config.py`) upper-cased with
`_TRANSACTION` appended, per `FlutterWaveClient.__init__`. -/
def FlutterWaveClient.payment_event_types : List String :=
  ["CARD_TRANSACTION", "USSD_TRANSACTION", "BANKTRANSFER_TRANSACTION",
   "ACCOUNT_TRANSACTION", "INTERNETBANKING_TRANSACTION", "APPLEPAY_TRANSACTION",
   "GOOGLEPAY_TRANSACTION", "ENAIRA_TRANSACTION", "OPAY_TRANSACTION"]

/-- `FlutterWaveClient.transfer_event_types` from `FlutterWaveClient.__init__`. -/
def FlutterWaveClient.transfer_event_types : List String := ["Transfer"]

/-- `FlutterWaveClient._valid_event_types`. -/
def FlutterWaveClient.valid_event_types : List String :=
  FlutterWaveClient.payment_event_types ++ FlutterWaveClient.transfer_event_types

/-- Whether `pat` occurs as a contiguous sublist of `l` (helper for Python's
substring containment `pat in s`). -/
def charsInfix (pat : List Char) : List Char → Bool
  | [] => pat.isEmpty
  | c :: rest => pat.isPrefixOf (c :: rest) || charsInfix pat rest

/-- Python's substring test `pat in s`. -/
def strContains (s pat : String) : Bool := charsInfix pat.toList s.toList

/-- The inner `data` dict of a transfer webhook event
(`{data: {id, status, amount, currency, reference, meta: {user_id}}}`).
`meta := some v` models a `meta` dict being present with `v` its optional
`user_id` entry. -/
structure TransferInner where
  id : Option String
  status : Option String
  amount : Option Int
  currency : Option String
  reference : Option String
  meta : Option (Option String)
deriving DecidableEq, Repr

/-- An inbound webhook payload as the keys `FlutterWaveClient` touches:
`event.type`, top-level `signature`, the payment-event keys `txRef` / `id` /
`status` / `meta_data` (with its `user_id`), and the transfer-event `data`
dict.  `none` models an absent key. -/
structure WebhookData where
  event_type : Option String
  signature : Option String
  txRef : Option String
  flw_id : Option String
  status : Option String
  meta_data : Option (Option String)
  data : Option TransferInner
deriving DecidableEq, Repr

/-- `FlutterWaveClient._validate_payload` (`app/services/payment_gateway.py`
lines 518-540).  For a payment event type it requires `txRef`, `status`, `id`,
`signature` and a `meta_data` dict containing `user_id`; for a transfer event
type it requires the inner `data` dict to carry `id`, `status`, `amount`,
`currency`, `reference` and a `meta` dict containing `user_id` — the top-level
`signature` is **not** required for transfer events.  Any other event type
falls through (Python returns `None`, which is falsy). -/
def FlutterWaveClient.validate_payload (d : WebhookData) : Bool :=
  match d.event_type with
  | none => false
  | some et =>
    if FlutterWaveClient.payment_event_types.contains et then
      d.txRef.isSome && d.status.isSome && d.flw_id.isSome && d.signature.isSome &&
        (match d.meta_data with
         | some (some _) => true
         | _ => false)
    else if FlutterWaveClient.transfer_event_types.contains et then
      match d.data with
      | none => false
      | some inner =>
        inner.id.isSome && inner.status.isSome && inner.amount.isSome &&
          inner.currency.isSome && inner.reference.isSome &&
          (match inner.meta with
           | some (some _) => true
           | _ => false)
    else false

/-- `FlutterWaveClient.verify_webhook_signature`: compare the received
signature with the configured `FLUTTERWAVE_WEBHOOK_HASH`. -/
def FlutterWaveClient.verify_webhook_signature (webhook_hash signature : String) : Bool :=
  signature == webhook_hash

/-- The dict built by `FlutterWaveClient._response` (the optional `data` echo
is dropped; no claim depends on it). -/
structure WebhookResponse where
  status : String
  message : String
deriving DecidableEq, Repr

/-- The provider's verification record, as read from
`verify_transaction`'s response: `verify["status"]`, `verify["data"]["amount"]`
and `verify["data"]["currency"]`.  It is an oracle input to the model, since
`verify_transaction` is an external HTTP call. -/
structure VerifyResult where
  status : String
  amount : Int
  currency : String
deriving DecidableEq, Repr

/-- `FlutterWaveClient._unlock_wallet_if_locked`
(`app/services/payment_gateway.py` lines 560-565): despite its name it checks
nothing; it calls `toggle_wallet_lock(user_id=wallet.user_id, lock=False)`.
The argument `wallet.user_id` is evaluated first (raising `AttributeError` on
a `None` wallet); the call itself then raises `TypeError`, since
`toggle_wallet_lock` declares no `lock` parameter.  Every invocation therefore
raises without touching the store. -/
def FlutterWaveClient.unlock_wallet_if_locked (st : Store) (wallet : Option WalletModel) :
    Store × Except PyError Unit :=
  match wallet with
  | none => (st, Except.error (PyError.attributeError "user_id"))
  | some w =>
    match WalletDB.toggle_wallet_lock_kw st w.user_id false with
    | (st', Except.error e) => (st', Except.error e)
    | (st', Except.ok _) => (st', Except.ok ())

/-- `FlutterWaveClient._handle_payment_success` (`app/services/payment_gateway.py`
lines 567-607).  The verification acceptance check is
`verify["status"] == "success" and verify["data"]["amount"] >= transaction.amount
and verify["data"]["currency"] == transaction.currency`; on acceptance the
transaction is marked `success` and the wallet balance is increased by the
**verified** amount, but the subsequent `_unlock_wallet_if_locked` call raises
(`TypeError` for the undeclared `lock` keyword), so the fanout publish and the
success response are unreachable and the handler surfaces the exception.  On a
failed check it only returns an `error` response: no status update, no unlock,
no balance change. -/
def FlutterWaveClient.handle_payment_success (st : Store) (transaction : TransactionModel)
    (verify : VerifyResult) : Store × Except PyError WebhookResponse :=
  if verify.status == "success" && decide (transaction.amount ≤ verify.amount) &&
      verify.currency == transaction.currency then
    let actual := verify.amount
    let st₁ := TransactionDB.update_status st transaction.id TransactionStatus.success
    match WalletDB.update_balance st₁ transaction.user_id actual UpdateMode.add with
    | (st₂, Except.error e) => (st₂, Except.error e)
    | (st₂, Except.ok updated_wallet) =>
      match FlutterWaveClient.unlock_wallet_if_locked st₂ (some updated_wallet) with
      | (st₃, Except.error e) => (st₃, Except.error e)
      | (st₃, Except.ok _) =>
        let st₄ := { st₃ with published := st₃.published ++
          [{ status := "success", message := "Wallet funded successfully.",
             tx_ref := transaction.reference, user_id := transaction.user_id,
             amount := actual, currency := transaction.currency }] }
        (st₄, Except.ok { status := "success", message := "Wallet funded successfully." })
  else
    (st, Except.ok { status := "error", message := "Verification mismatch or failed." })

/-- `FlutterWaveClient._handle_payment_failure`: mark the transaction `failed`,
then call `_unlock_wallet_if_locked`, which raises, so the fanout publish and
the `failed` response are unreachable. -/
def FlutterWaveClient.handle_payment_failure (st : Store) (transaction : TransactionModel)
    (wallet : Option WalletModel) : Store × Except PyError WebhookResponse :=
  let st₁ := TransactionDB.update_status st transaction.id TransactionStatus.failed
  match FlutterWaveClient.unlock_wallet_if_locked st₁ wallet with
  | (st₂, Except.error e) => (st₂, Except.error e)
  | (st₂, Except.ok _) =>
    let st₃ := { st₂ with published := st₂.published ++
      [{ status := "failed", message := "Payment failed or cancelled.",
         tx_ref := transaction.reference, user_id := transaction.user_id,
         amount := transaction.amount, currency := transaction.currency }] }
    (st₃, Except.ok { status := "failed", message := "Payment failed or cancelled." })

/-- `FlutterWaveClient._handle_transfer_success`: mark the transaction
`success` and subtract its amount from the wallet balance, then call
`_unlock_wallet_if_locked`, which raises, so the fanout publish and the
success response are unreachable. -/
def FlutterWaveClient.handle_transfer_success (st : Store) (transaction : TransactionModel) :
    Store × Except PyError WebhookResponse :=
  let st₁ := TransactionDB.update_status st transaction.id TransactionStatus.success
  match WalletDB.update_balance st₁ transaction.user_id transaction.amount
      UpdateMode.subtract with
  | (st₂, Except.error e) => (st₂, Except.error e)
  | (st₂, Except.ok updated_wallet) =>
    match FlutterWaveClient.unlock_wallet_if_locked st₂ (some updated_wallet) with
    | (st₃, Except.error e) => (st₃, Except.error e)
    | (st₃, Except.ok _) =>
      let st₄ := { st₃ with published := st₃.published ++
        [{ status := "success", message := "Transfer successful.",
           tx_ref := transaction.reference, user_id := transaction.user_id,
           amount := transaction.amount, currency := transaction.currency }] }
      (st₄, Except.ok { status := "success", message := "Transfer successful." })

/-- `FlutterWaveClient._handle_transfer_failure`: mark the transaction
`failed`, then call `_unlock_wallet_if_locked`, which raises, so the fanout
publish and the `failed` response are unreachable. -/
def FlutterWaveClient.handle_transfer_failure (st : Store) (transaction : TransactionModel)
    (wallet : Option WalletModel) : Store × Except PyError WebhookResponse :=
  let st₁ := TransactionDB.update_status st transaction.id TransactionStatus.failed
  match FlutterWaveClient.unlock_wallet_if_locked st₁ wallet with
  | (st₂, Except.error e) => (st₂, Except.error e)
  | (st₂, Except.ok _) =>
    let st₃ := { st₂ with published := st₂.published ++
      [{ status := "failed", message := "Transfer failed or cancelled.",
         tx_ref := transaction.reference, user_id := transaction.user_id,
         amount := transaction.amount, currency := transaction.currency }] }
    (st₃, Except.ok { status := "failed", message := "Transfer failed or cancelled." })

/-- `FlutterWaveClient._payment_webhook_processor` (`app/services/payment_gateway.py`
lines 280-323).  Reads `txRef`, `id`, `status` (a missing key raises
`KeyError`) and `meta_data.user_id` via `.get`; looks up the transaction by
reference and the wallet by user id; the `not found` branch calls
`_unlock_wallet_if_locked` (which raises); a terminal status reports `skipped`
with no state action; `pending` branches on the webhook's `status` field. -/
def FlutterWaveClient.payment_webhook_processor (st : Store) (d : WebhookData)
    (verify : VerifyResult) : Store × Except PyError WebhookResponse :=
  match d.txRef with
  | none => (st, Except.error (PyError.keyError "txRef"))
  | some tx_ref =>
  match d.flw_id with
  | none => (st, Except.error (PyError.keyError "id"))
  | some _flw_tx_id =>
  match d.status with
  | none => (st, Except.error (PyError.keyError "status"))
  | some flw_status =>
    let user_id : Option String := d.meta_data.join
    let transaction := TransactionDB.get_by_reference st tx_ref
    let wallet : Option WalletModel :=
      match user_id with
      | some uid => WalletDB.get_by_user_id st uid
      | none => none
    match transaction with
    | none =>
      match FlutterWaveClient.unlock_wallet_if_locked st wallet with
      | (st', Except.error e) => (st', Except.error e)
      | (st', Except.ok _) =>
        (st', Except.ok { status := "error", message := "Transaction not found." })
    | some txn =>
      if txn.status == TransactionStatus.success then
        (st, Except.ok { status := "skipped", message := "Transaction already processed." })
      else if txn.status == TransactionStatus.failed then
        (st, Except.ok { status := "skipped", message := "Transaction already failed." })
      else if txn.status != TransactionStatus.pending then
        (st, Except.ok { status := "error",
                         message := "Invalid transaction status: " ++ txn.status })
      else if flw_status == "successful" then
        FlutterWaveClient.handle_payment_success st txn verify
      else
        FlutterWaveClient.handle_payment_failure st txn wallet

/-- `FlutterWaveClient._transfer_webhook_processor` (`app/services/payment_gateway.py`
lines 346-386).  Same shape as the payment processor, reading
`data["data"]["reference"]`, `data["data"]["status"]` and
`data["data"]["meta"].get("user_id")`; the success branch triggers on the
upper-case `"SUCCESSFUL"`. -/
def FlutterWaveClient.transfer_webhook_processor (st : Store) (d : WebhookData) :
    Store × Except PyError WebhookResponse :=
  match d.data with
  | none => (st, Except.error (PyError.keyError "data"))
  | some inner =>
  match inner.reference with
  | none => (st, Except.error (PyError.keyError "reference"))
  | some tx_ref =>
  match inner.status with
  | none => (st, Except.error (PyError.keyError "status"))
  | some flw_status =>
  match inner.meta with
  | none => (st, Except.error (PyError.keyError "meta"))
  | some meta_user_id =>
    let transaction := TransactionDB.get_by_reference st tx_ref
    let wallet : Option WalletModel :=
      match meta_user_id with
      | some uid => WalletDB.get_by_user_id st uid
      | none => none
    match transaction with
    | none =>
      match FlutterWaveClient.unlock_wallet_if_locked st wallet with
      | (st', Except.error e) => (st', Except.error e)
      | (st', Except.ok _) =>
        (st', Except.ok { status := "error", message := "Transaction not found." })
    | some txn =>
      if txn.status == TransactionStatus.success then
        (st, Except.ok { status := "skipped", message := "Transaction already processed." })
      else if txn.status == TransactionStatus.failed then
        (st, Except.ok { status := "skipped", message := "Transaction already failed." })
      else if txn.status != TransactionStatus.pending then
        (st, Except.ok { status := "error",
                         message := "Invalid transaction status: " ++ txn.status })
      else if flw_status == "SUCCESSFUL" then
        FlutterWaveClient.handle_transfer_success st txn
      else
        FlutterWaveClient.handle_transfer_failure st txn wallet

/-- `FlutterWaveClient.process_webhook` (`app/services/payment_gateway.py`
lines 482-516).  Order of operations, as in the source: payload validation
(returning an `error` response on failure), then the **unguarded** dict access
`data["signature"]` (a `KeyError` here is raised outside the `try` block and
escapes), the signature comparison, the event-type dispatch (string-keyed:
event types containing `_TRANSACTION` go to the payment handler, `Transfer` to
the transfer handler), and a session transaction around the handler whose
writes are rolled back if the handler raises, converting the exception into a
generic `error` response.  Redis fanout publishes are not session writes and
survive the rollback. -/
def FlutterWaveClient.process_webhook (webhook_hash : String) (st : Store)
    (d : WebhookData) (verify : VerifyResult) : Store × Except PyError WebhookResponse :=
  if !FlutterWaveClient.validate_payload d then
    (st, Except.ok { status := "error", message := "Missing required fields in webhook." })
  else
    match d.signature with
    | none => (st, Except.error (PyError.keyError "signature"))
    | some signature =>
      if !FlutterWaveClient.verify_webhook_signature webhook_hash signature then
        (st, Except.ok { status := "error", message := "Invalid webhook signature." })
      else
        match d.event_type with
        | none => (st, Except.error (PyError.keyError "event.type"))
        | some et =>
          if !FlutterWaveClient.valid_event_types.contains et then
            (st, Except.ok { status := "ignored", message := "Unsupported event type." })
          else
            let handled : Option (Store × Except PyError WebhookResponse) :=
              if strContains et "_TRANSACTION" then
                some (FlutterWaveClient.payment_webhook_processor st d verify)
              else if et == "Transfer" then
                some (FlutterWaveClient.transfer_webhook_processor st d)
              else none
            match handled with
            | none =>
              (st, Except.ok { status := "ignored", message := "No handler for this event type." })
            | some (st', Except.ok resp) => (st', Except.ok resp)
            | some (st', Except.error _) =>
              ({ st with published := st'.published },
               Except.ok { status := "error",
                           message := "Webhook processing failed unexpectedly." })

/-- Delivering the same webhook event `n` times in a row through
`process_webhook`, collecting each delivery's outcome (models at-least-once
redelivery of a duplicated event through the full pipeline). -/
def replayProcessN (webhook_hash : String) (d : WebhookData) (verify : VerifyResult) :
    Nat → Store → Store × List (Except PyError WebhookResponse)
  | 0, st => (st, [])
  | n + 1, st =>
    match FlutterWaveClient.process_webhook webhook_hash st d verify with
    | (st', r) =>
      let rest := replayProcessN webhook_hash d verify n st'
      (rest.1, r :: rest.2)

/-- Outcome of `FlutterWaveClient.initiate_payment` as `fund_wallet` consumes
it: either the gateway response (carrying the generated `tx_ref`, the
`created_at` timestamp and `data.link`, with `""` for a missing link, as in
`response.get("data", {}).get("link", "")`), or an `httpx.RequestError`
(which `initiate_payment` converts to
`PaymentFailedError(..., unlock_wallet=True)`). -/
inductive GatewayPaymentResult where
  | response (tx_ref : String) (created_at : String) (link : String)
  | requestError (message : String)
deriving DecidableEq, Repr

/-- `FundWalletResponseSchema` (`app/schemas/wallet.py`) as used by `fund_wallet`. -/
structure FundWalletResponse where
  message : String
  link : String
deriving DecidableEq, Repr

/-- The `except PaymentFailedError` clause of `fund_wallet`
(`app/api/v1/wallet.py` lines 166-169): when the caught error's
`unlock_wallet` flag is set it calls `toggle_wallet_lock(user.id, lock=False)`
— which raises `TypeError` for the undeclared `lock` keyword, so this new
exception propagates out of the handler in place of the re-raise and no unlock
is performed; any other error propagates with no unlock attempt at all. -/
def fund_wallet_except (st : Store) (user_id : String) (e : PyError) :
    Store × Except PyError FundWalletResponse :=
  match e with
  | PyError.paymentFailedError _ _ true =>
    match WalletDB.toggle_wallet_lock_kw st user_id false with
    | (st', Except.error e') => (st', Except.error e')
    | (st', Except.ok _) => (st', Except.error e)
  | _ => (st, Except.error e)

/-- `fund_wallet` (`app/api/v1/wallet.py` lines 99-169): look the wallet up,
refuse if `is_locked`, then attempt to lock it via
`toggle_wallet_lock(user.id, lock=True)` — a `TypeError` for the undeclared
`lock` keyword, raised before the `try` block, so the flow aborts here with the
wallet never locked and the remainder of the body unreachable.  That remainder
is still modelled for reference: inside a session transaction it calls the
gateway, creates the pending `fund` transaction record and requires a payment
link; the raise for a missing link is
`PaymentFailedError("Payment link not provided by Flutterwave.")` — the source
omits the constructor's required `user_id` argument and leaves `unlock_wallet`
at its default `False`; it is modelled with those class defaults.  A raise
aborts the session, so the record created in it is rolled back. -/
def fund_wallet (st : Store) (user_id : String) (amount : Int) (currency : String)
    (gw : GatewayPaymentResult) : Store × Except PyError FundWalletResponse :=
  match WalletDB.get_by_user_id st user_id with
  | none => (st, Except.error (PyError.objectNotFoundError "Wallet not found for the user."))
  | some wallet =>
    if wallet.is_locked then
      (st, Except.error
        (PyError.walletError "Wallet is locked. Cannot perform any wallet operations."))
    else
      match WalletDB.toggle_wallet_lock_kw st user_id true with
      | (st₁, Except.error e) => (st₁, Except.error e)
      | (st₁, Except.ok _) =>
        match gw with
        | GatewayPaymentResult.requestError message =>
          fund_wallet_except st₁ user_id
            (PyError.paymentFailedError ("Failed to initiate payment: " ++ message)
              user_id true)
        | GatewayPaymentResult.response tx_ref created_at link =>
          match TransactionType.attr "FUND" with
          | none => (st₁, Except.error (PyError.attributeError "FUND"))
          | some fund_type =>
            let record : TransactionInput :=
              { user_id := user_id, wallet_id := toString wallet.id, amount := amount,
                currency := currency, type := fund_type,
                status := TransactionStatus.pending, reference := some tx_ref,
                timestamp := created_at }
            let created := TransactionDB.create st₁ record
            if link == "" then
              fund_wallet_except st₁ user_id
                (PyError.paymentFailedError "Payment link not provided by Flutterwave."
                  user_id false)
            else
              (created.1, Except.ok { message := "Wallet funded successfully!", link := link })

/-- The branches of `purchase_airtime` past the transaction-record
construction (`app/api/v1/airtime.py` lines 118-152), on the VTPass processed
response status.  In the source these lines are unreachable (the flow already
dies at the lock call, and building the record would evaluate
`TransactionType.AIRTIME_PURCHASE.value`, which raises); they are modelled for
reference.  A raise aborts the session (rolling back its writes) before the
except clause runs, and the except clause's own
`toggle_wallet_lock(user_id=e.user_id, lock=False)` raises `TypeError` for the
undeclared keyword, so no unlock happens on these paths either. -/
def purchase_airtime_branches (st₁ : Store) (user_id : String) (amount : Int)
    (wallet : WalletModel) (airtime_type : String) (vt_status : String)
    (vt_request_id : Option String) (vt_message : String) :
    Store × Except PyError (Option TransactionModel) :=
  let record : TransactionInput :=
    { user_id := user_id, wallet_id := toString wallet.id, amount := amount,
      currency := "NGN", type := airtime_type, status := TransactionStatus.pending,
      reference := vt_request_id, timestamp := "now" }
  if vt_status == "failed" || vt_status == "error" then
    match WalletDB.toggle_wallet_lock_kw st₁ user_id false with
    | (st', Except.error e') => (st', Except.error e')
    | (st', Except.ok _) =>
      (st', Except.error (PyError.airtimePurchaseError
        ("Airtime purchase failed: " ++ vt_message) user_id true))
  else if vt_status == "pending" || vt_status == "requery" then
    let created := TransactionDB.create st₁ record
    (created.1, Except.ok none)
  else if vt_status == "success" then
    match WalletDB.update_balance st₁ user_id amount UpdateMode.subtract with
    | (_, Except.error e) => (st₁, Except.error e)
    | (st₂, Except.ok _) =>
      let created := TransactionDB.create st₂
        { record with status := TransactionStatus.success }
      (created.1, Except.ok (some created.2))
  else
    match WalletDB.toggle_wallet_lock_kw st₁ user_id false with
    | (st', Except.error e') => (st', Except.error e')
    | (st', Except.ok _) =>
      (st', Except.error (PyError.airtimePurchaseError
        "Unexpected response status from airtime purchase." user_id true))

/-- `purchase_airtime` (`app/api/v1/airtime.py` lines 53-156): validate the
service id, check the wallet balance (the raise for an insufficient balance
omits the constructor's required `user_id`; modelled with the class defaults),
then attempt to lock the wallet via
`toggle_wallet_lock(user_id=user.id, lock=True)` — a `TypeError` for the
undeclared `lock` keyword, raised before the `try` block, so the flow aborts
here: the wallet is never locked and no transaction record is ever created.
The unreachable remainder is still modelled: building the record would
evaluate `TransactionType.AIRTIME_PURCHASE.value`, an attribute the enum does
not declare, so the lookup yields `none` (`AttributeError`). -/
def purchase_airtime (st : Store) (user_id : String) (amount : Int)
    (service_valid : Bool) (vt_status : String) (vt_request_id : Option String)
    (vt_message : String) : Store × Except PyError (Option TransactionModel) :=
  if !service_valid then
    (st, Except.error (PyError.airtimePurchaseError "Invalid service ID" user_id false))
  else
    match WalletDB.get_by_user_id st user_id with
    | none =>
      (st, Except.error (PyError.airtimePurchaseError
        "Insufficient wallet balance for airtime purchase." user_id false))
    | some wallet =>
      if wallet.balance < amount then
        (st, Except.error (PyError.airtimePurchaseError
          "Insufficient wallet balance for airtime purchase." user_id false))
      else
        match WalletDB.toggle_wallet_lock_kw st user_id true with
        | (st₁, Except.error e) => (st₁, Except.error e)
        | (st₁, Except.ok _) =>
          match TransactionType.attr "AIRTIME_PURCHASE" with
          | none => (st₁, Except.error (PyError.attributeError "AIRTIME_PURCHASE"))
          | some airtime_type =>
            purchase_airtime_branches st₁ user_id amount wallet airtime_type
              vt_status vt_request_id vt_message



def wallet0 : WalletModel :=
  { id := 0, user_id := "u1", balance := 0, currency := "NGN",
    is_locked := false, is_active := true }

def walletLocked : WalletModel := { wallet0 with is_locked := true }

def txnPending : TransactionModel :=
  { id := 10, user_id := "u1", wallet_id := "0", amount := 1000, currency := "NGN",
    type := "fund", status := "pending", reference := some "r1", timestamp := "t0" }

def storeMidFund : Store :=
  { wallets := [walletLocked], transactions := [txnPending], next_id := 11, published := [] }

def paymentEvent : WebhookData :=
  { event_type := some "CARD_TRANSACTION", signature := some "hash",
    txRef := some "r1", flw_id := some "f1", status := some "successful",
    meta_data := some (some "u1"), data := none }

def verifyOk : VerifyResult := { status := "success", amount := 1000, currency := "NGN" }

def verifyLow : VerifyResult := { status := "success", amount := 500, currency := "NGN" }


def storeClean : Store :=
  { wallets := [wallet0], transactions := [], next_id := 0, published := [] }

def storeRich : Store :=
  { wallets := [{ wallet0 with balance := 5000 }], transactions := [],
    next_id := 0, published := [] }

def transferInnerOk : TransferInner :=
  { id := some "f1", status := some "SUCCESSFUL", amount := some 1000,
    currency := some "NGN", reference := some "r1", meta := some (some "u1") }

/-- A transfer webhook payload with a complete inner `data` dict but no
top-level `signature` key. -/
def unsignedTransferEvent : WebhookData :=
  { event_type := some "Transfer", signature := none, txRef := none, flw_id := none,
    status := none, meta_data := none, data := some transferInnerOk }

/-- A create-input whose `reference` collides with `txnPending`'s. -/
def dupRefInput : TransactionInput :=
  { user_id := "u1", wallet_id := "0", amount := 7, currency := "NGN",
    type := "fund", status := "pending", reference := some "r1", timestamp := "t1" }

/-- A terminal-transaction variant of `storeMidFund`. -/
def storeTerminal : Store :=
  { storeMidFund with transactions := [{ txnPending with status := "success" }] }

def walletBal100 : WalletModel := { wallet0 with balance := 100 }

def storeBal100 : Store :=
  { wallets := [walletBal100], transactions := [], next_id := 0, published := [] }

/-- One `update_balance` call described by its arguments
(`user_id`, `amount`, `mode`). -/
structure BalanceOp where
  user_id : String
  amount : Int
  mode : UpdateMode
deriving DecidableEq, Repr

/-- The store after one `update_balance` call (whether it succeeded or raised). -/
def applyBalanceOp (st : Store) (op : BalanceOp) : Store :=
  (WalletDB.update_balance st op.user_id op.amount op.mode).1

lemma find?_set_by_id (l : List WalletModel) (uid : String) (w w' : WalletModel)
    (hfind : l.find? (fun v => v.user_id == uid) = some w)
    (huid : w'.user_id = w.user_id) :
    (l.map (fun v => if v.id == w.id then w' else v)).find?
      (fun v => v.user_id == uid) = some w' := by
  have hwuid : (w.user_id == uid) = true := by simpa using List.find?_some hfind
  induction l with
  | nil => simp at hfind
  | cons a t ih =>
    by_cases ha : (a.user_id == uid) = true
    · rw [List.find?_cons_of_pos (p := fun v : WalletModel => v.user_id == uid) _ ha] at hfind
      have haw : a = w := by injection hfind
      subst haw
      simp only [List.map_cons, beq_self_eq_true, if_pos]
      rw [List.find?_cons_of_pos (p := fun v : WalletModel => v.user_id == uid)]
      simp [huid, hwuid]
    · rw [List.find?_cons_of_neg (p := fun v : WalletModel => v.user_id == uid) _ ha] at hfind
      by_cases hid : (a.id == w.id) = true
      · simp only [List.map_cons, hid, if_pos]
        rw [List.find?_cons_of_pos (p := fun v : WalletModel => v.user_id == uid)]
        simp [huid, hwuid]
      · simp only [List.map_cons, hid]
        rw [if_neg Bool.false_ne_true,
          List.find?_cons_of_neg (p := fun v : WalletModel => v.user_id == uid) _ ha]
        exact ih hfind

lemma get_by_user_id_setWalletById {st : Store} {uid : String} {w : WalletModel}
    (w' : WalletModel) (hfind : WalletDB.get_by_user_id st uid = some w)
    (huid : w'.user_id = w.user_id) :
    WalletDB.get_by_user_id (Store.setWalletById st w.id w') uid = some w' :=
  find?_set_by_id st.wallets uid w w' hfind huid

lemma update_balance_spec (st : Store) (uid : String) (amt : Int) (mode : UpdateMode)
    (w : WalletModel) (hw : WalletDB.get_by_user_id st uid = some w) :
    WalletDB.update_balance st uid amt mode =
      if WalletDB.new_balance w amt mode < 0 then
        (st, Except.error (PyError.walletError "Insufficient balance for this operation"))
      else
        (Store.setWalletById st w.id { w with balance := WalletDB.new_balance w amt mode },
         Except.ok { w with balance := WalletDB.new_balance w amt mode }) := by
  unfold WalletDB.update_balance
  rw [hw]

lemma toggle_spec (st : Store) (uid : String) (w : WalletModel)
    (hw : WalletDB.get_by_user_id st uid = some w) :
    WalletDB.toggle_wallet_lock st uid =
      (Store.setWalletById st w.id { w with is_locked := !w.is_locked },
       Except.ok { w with is_locked := !w.is_locked }) := by
  unfold WalletDB.toggle_wallet_lock
  rw [hw]

lemma payment_skip (st : Store) (d : WebhookData) (v : VerifyResult)
    (tx_ref fid s : String) (txn : TransactionModel)
    (h1 : d.txRef = some tx_ref) (h2 : d.flw_id = some fid) (h3 : d.status = some s)
    (href : TransactionDB.get_by_reference st tx_ref = some txn)
    (hterm : txn.status = TransactionStatus.success ∨ txn.status = TransactionStatus.failed) :
    FlutterWaveClient.payment_webhook_processor st d v =
      (st, Except.ok { status := "skipped",
                       message := (if txn.status == TransactionStatus.success
                                   then "Transaction already processed."
                                   else "Transaction already failed.") }) := by
  unfold FlutterWaveClient.payment_webhook_processor
  rw [h1, h2, h3]
  dsimp only
  rcases hterm with h | h <;>
    simp [href, h, TransactionStatus.success, TransactionStatus.failed]

lemma transfer_skip (st : Store) (d : WebhookData) (inner : TransferInner)
    (tx_ref s : String) (meta_uid : Option String) (txn : TransactionModel)
    (h0 : d.data = some inner) (h1 : inner.reference = some tx_ref)
    (h2 : inner.status = some s) (h3 : inner.meta = some meta_uid)
    (href : TransactionDB.get_by_reference st tx_ref = some txn)
    (hterm : txn.status = TransactionStatus.success ∨ txn.status = TransactionStatus.failed) :
    FlutterWaveClient.transfer_webhook_processor st d =
      (st, Except.ok { status := "skipped",
                       message := (if txn.status == TransactionStatus.success
                                   then "Transaction already processed."
                                   else "Transaction already failed.") }) := by
  unfold FlutterWaveClient.transfer_webhook_processor
  rw [h0]
  dsimp only
  rw [h1, h2, h3]
  dsimp only
  rcases hterm with h | h <;>
    simp [href, h, TransactionStatus.success, TransactionStatus.failed]

lemma applyBalanceOp_nonneg (st : Store) (op : BalanceOp)
    (h : ∀ w ∈ st.wallets, 0 ≤ w.balance) :
    ∀ w ∈ (applyBalanceOp st op).wallets, 0 ≤ w.balance := by
  unfold applyBalanceOp WalletDB.update_balance
  cases hw : WalletDB.get_by_user_id st op.user_id with
  | none => simpa using h
  | some w0 =>
    dsimp only
    by_cases hnb : WalletDB.new_balance w0 op.amount op.mode < 0
    · rw [if_pos hnb]
      simpa using h
    · rw [if_neg hnb]
      dsimp only
      intro w hw'
      unfold Store.setWalletById at hw'
      dsimp only at hw'
      rcases List.mem_map.mp hw' with ⟨v, hv, hveq⟩
      by_cases hid : (v.id == w0.id) = true
      · rw [if_pos hid] at hveq
        rw [← hveq]
        exact Int.not_lt.mp hnb
      · rw [if_neg hid] at hveq
        rw [← hveq]
        exact h v hv

lemma foldl_balanceOps_nonneg :
    ∀ (ops : List BalanceOp) (st : Store),
      (∀ w ∈ st.wallets, 0 ≤ w.balance) →
      ∀ w ∈ (ops.foldl applyBalanceOp st).wallets, 0 ≤ w.balance := by
  intro ops
  induction ops with
  | nil =>
    intro st h
    simpa using h
  | cons op rest ih =>
    intro st h
    rw [List.foldl_cons]
    exact ih _ (applyBalanceOp_nonneg st op h)

lemma update_balance_published (st : Store) (uid : String) (a : Int) (m : UpdateMode) :
    (WalletDB.update_balance st uid a m).1.published = st.published := by
  unfold WalletDB.update_balance
  cases WalletDB.get_by_user_id st uid with
  | none => rfl
  | some w =>
    dsimp only
    by_cases h : WalletDB.new_balance w a m < 0
    · rw [if_pos h]
    · rw [if_neg h]
      rfl

lemma handle_payment_success_raises (st : Store) (txn : TransactionModel)
    (v : VerifyResult)
    (hacc : (v.status == "success" && decide (txn.amount ≤ v.amount) &&
             v.currency == txn.currency) = true) :
    ∃ st' e, FlutterWaveClient.handle_payment_success st txn v =
        (st', Except.error e) ∧ st'.published = st.published := by
  unfold FlutterWaveClient.handle_payment_success
  rw [hacc]
  simp only [if_true]
  rcases hub : WalletDB.update_balance
      (TransactionDB.update_status st txn.id TransactionStatus.success)
      txn.user_id v.amount UpdateMode.add with ⟨st₂, r⟩
  have hpub : st₂.published = st.published := by
    have h1 := update_balance_published
      (TransactionDB.update_status st txn.id TransactionStatus.success)
      txn.user_id v.amount UpdateMode.add
    rw [hub] at h1
    exact h1
  cases r with
  | error e =>
    exact ⟨st₂, e, rfl, hpub⟩
  | ok w' =>
    exact ⟨st₂,
      PyError.typeError "toggle_wallet_lock got an unexpected keyword argument lock",
      rfl, hpub⟩

lemma payment_processor_success_aborts (st : Store) (d : WebhookData) (v : VerifyResult)
    (tx_ref fid : String) (txn : TransactionModel)
    (h1 : d.txRef = some tx_ref) (h2 : d.flw_id = some fid)
    (h3 : d.status = some "successful")
    (href : TransactionDB.get_by_reference st tx_ref = some txn)
    (hpend : txn.status = TransactionStatus.pending)
    (hacc : (v.status == "success" && decide (txn.amount ≤ v.amount) &&
             v.currency == txn.currency) = true) :
    ∃ st' e, FlutterWaveClient.payment_webhook_processor st d v =
        (st', Except.error e) ∧ st'.published = st.published := by
  unfold FlutterWaveClient.payment_webhook_processor
  rw [h1, h2, h3]
  dsimp only
  simp only [href, hpend]
  simp only [show (TransactionStatus.pending == TransactionStatus.success) = false from rfl,
    show (TransactionStatus.pending == TransactionStatus.failed) = false from rfl,
    show (TransactionStatus.pending != TransactionStatus.pending) = false from rfl,
    show ("successful" == "successful") = true from rfl,
    Bool.false_eq_true, if_false, if_true]
  exact handle_payment_success_raises st txn v hacc

lemma process_webhook_success_aborts (webhook_hash : String) (st : Store)
    (d : WebhookData) (v : VerifyResult) (et tx_ref fid : String)
    (txn : TransactionModel)
    (hval : FlutterWaveClient.validate_payload d = true)
    (hsig : d.signature = some webhook_hash)
    (het : d.event_type = some et)
    (hin : FlutterWaveClient.valid_event_types.contains et = true)
    (hpay : strContains et "_TRANSACTION" = true)
    (h1 : d.txRef = some tx_ref) (h2 : d.flw_id = some fid)
    (h3 : d.status = some "successful")
    (href : TransactionDB.get_by_reference st tx_ref = some txn)
    (hpend : txn.status = TransactionStatus.pending)
    (hacc : (v.status == "success" && decide (txn.amount ≤ v.amount) &&
             v.currency == txn.currency) = true) :
    FlutterWaveClient.process_webhook webhook_hash st d v =
      (st, Except.ok { status := "error",
                       message := "Webhook processing failed unexpectedly." }) := by
  obtain ⟨st', e, hproc, hpub⟩ :=
    payment_processor_success_aborts st d v tx_ref fid txn h1 h2 h3 href hpend hacc
  unfold FlutterWaveClient.process_webhook
  rw [hsig, het]
  simp only [hval, Bool.not_true, Bool.false_eq_true, if_false]
  simp only [FlutterWaveClient.verify_webhook_signature, beq_self_eq_true,
    Bool.not_true, Bool.false_eq_true, if_false]
  simp only [hin, Bool.not_true, Bool.false_eq_true, if_false]
  simp only [hpay, if_true]
  rw [hproc]
  dsimp only
  rw [hpub]

lemma replayProcess_fixed (webhook_hash : String) (d : WebhookData) (v : VerifyResult)
    (st : Store) (r : WebhookResponse)
    (hstep : FlutterWaveClient.process_webhook webhook_hash st d v = (st, Except.ok r)) :
    ∀ n, replayProcessN webhook_hash d v n st =
      (st, List.replicate n (Except.ok r)) := by
  intro n
  induction n with
  | zero => simp [replayProcessN]
  | succ k ih =>
    unfold replayProcessN
    rw [hstep]
    dsimp only
    rw [ih]
    simp [List.replicate_succ]


/-- C1 counterexample: the claim says release unconditionally sets
`is_locked = false` and acquire otherwise atomically sets it to true.  Every
acquire/release call site passes an undeclared `lock=` keyword: releasing the
locked wallet of `storeMidFund` raises `TypeError` and leaves it locked (not
false), and a fund request on the unlocked wallet of `storeClean` aborts with
the same `TypeError` with `is_locked` still false — the flag is never written
in either direction. -/
theorem C1_release_unlocked_counterexample :
    WalletDB.toggle_wallet_lock_kw storeMidFund "u1" false =
      (storeMidFund, Except.error
        (PyError.typeError "toggle_wallet_lock got an unexpected keyword argument lock")) ∧
    (WalletDB.get_by_user_id storeMidFund "u1").map WalletModel.is_locked = some true ∧
    some true ≠ some false ∧
    fund_wallet storeClean "u1" 1000 "NGN"
      (GatewayPaymentResult.response "r1" "t0" "link") =
      (storeClean, Except.error
        (PyError.typeError "toggle_wallet_lock got an unexpected keyword argument lock")) ∧
    (WalletDB.get_by_user_id storeClean "u1").map WalletModel.is_locked = some false := by
  decide

/-- C1 (amended): the lock-conflict check works — `fund_wallet` fails with a
`WalletError` and an unchanged store when `is_locked` is already true — but on
an unlocked wallet the acquire call, like every release call site, passes an
undeclared `lock=` keyword to `toggle_wallet_lock` and raises `TypeError`
without writing the flag, so the fund flow never sets `is_locked` and release
never clears it; the `toggle_wallet_lock` method itself (invoked without the
keyword, as the withdraw flow does) is a non-atomic read-then-write toggle of
`is_locked`, not a single conditional update, and does not fail on a locked
wallet. -/
theorem C1_lock_protocol_amended :
    (∀ (st : Store) (user_id : String) (amount : Int) (currency : String)
       (gw : GatewayPaymentResult) (w : WalletModel),
       WalletDB.get_by_user_id st user_id = some w → w.is_locked = true →
       fund_wallet st user_id amount currency gw =
         (st, Except.error (PyError.walletError
           "Wallet is locked. Cannot perform any wallet operations."))) ∧
    (∀ (st : Store) (user_id : String) (amount : Int) (currency : String)
       (gw : GatewayPaymentResult) (w : WalletModel),
       WalletDB.get_by_user_id st user_id = some w → w.is_locked = false →
       fund_wallet st user_id amount currency gw =
         (st, Except.error
           (PyError.typeError "toggle_wallet_lock got an unexpected keyword argument lock"))) ∧
    (∀ (st : Store) (user_id : String) (b : Bool),
       WalletDB.toggle_wallet_lock_kw st user_id b =
         (st, Except.error
           (PyError.typeError "toggle_wallet_lock got an unexpected keyword argument lock"))) ∧
    (∀ (st : Store) (user_id : String) (w : WalletModel),
       WalletDB.get_by_user_id st user_id = some w →
       WalletDB.toggle_wallet_lock st user_id =
         (Store.setWalletById st w.id { w with is_locked := !w.is_locked },
          Except.ok { w with is_locked := !w.is_locked })) := by
  refine ⟨?_, ?_, ?_, ?_⟩
  · intro st uid amt cur gw w hw hlock
    unfold fund_wallet
    rw [hw]
    dsimp only
    simp [hlock]
  · intro st uid amt cur gw w hw hunlocked
    unfold fund_wallet
    rw [hw]
    dsimp only
    simp [hunlocked, WalletDB.toggle_wallet_lock_kw]
  · intro st uid b
    rfl
  · intro st uid w hw
    exact toggle_spec st uid w hw

/-- C1 witness: the amended lock-protocol statement instantiated on concrete
stores — a fund request on a locked wallet fails with the lock-conflict
error, one on an unlocked wallet aborts with the keyword `TypeError` without
locking, the keyword call itself raises with the store unchanged, and the
underlying method toggles. -/
theorem C1_lock_protocol_amended_witness :
    fund_wallet storeMidFund "u1" 1000 "NGN"
      (GatewayPaymentResult.response "r1" "t0" "link") =
      (storeMidFund, Except.error (PyError.walletError
        "Wallet is locked. Cannot perform any wallet operations.")) ∧
    fund_wallet storeClean "u1" 1000 "NGN"
      (GatewayPaymentResult.response "r1" "t0" "link") =
      (storeClean, Except.error
        (PyError.typeError "toggle_wallet_lock got an unexpected keyword argument lock")) ∧
    WalletDB.toggle_wallet_lock_kw storeClean "u1" false =
      (storeClean, Except.error
        (PyError.typeError "toggle_wallet_lock got an unexpected keyword argument lock")) ∧
    WalletDB.toggle_wallet_lock storeClean "u1" =
      (Store.setWalletById storeClean wallet0.id { wallet0 with is_locked := !wallet0.is_locked },
       Except.ok { wallet0 with is_locked := !wallet0.is_locked }) :=
  ⟨C1_lock_protocol_amended.1 storeMidFund "u1" 1000 "NGN"
      (GatewayPaymentResult.response "r1" "t0" "link") walletLocked (by decide) (by decide),
   C1_lock_protocol_amended.2.1 storeClean "u1" 1000 "NGN"
      (GatewayPaymentResult.response "r1" "t0" "link") wallet0 (by decide) (by decide),
   C1_lock_protocol_amended.2.2.1 storeClean "u1" false,
   C1_lock_protocol_amended.2.2.2 storeClean "u1" wallet0 (by decide)⟩

/-- C3: `update_balance` rejects (raising the insufficient-balance
`WalletError` and leaving the store unchanged) any mutation whose resulting
balance would be negative, never clamps (on success the stored balance is
exactly the computed new balance), and therefore every wallet balance stays
non-negative under every sequence of `update_balance` calls. -/
theorem C3_balance_nonneg_invariant :
    (∀ (st : Store) (uid : String) (amt : Int) (mode : UpdateMode) (w : WalletModel),
       WalletDB.get_by_user_id st uid = some w →
       WalletDB.new_balance w amt mode < 0 →
       WalletDB.update_balance st uid amt mode =
         (st, Except.error (PyError.walletError "Insufficient balance for this operation"))) ∧
    (∀ (st : Store) (uid : String) (amt : Int) (mode : UpdateMode) (w : WalletModel),
       WalletDB.get_by_user_id st uid = some w →
       ¬ WalletDB.new_balance w amt mode < 0 →
       (WalletDB.update_balance st uid amt mode).2 =
         Except.ok { w with balance := WalletDB.new_balance w amt mode }) ∧
    (∀ (st : Store) (ops : List BalanceOp),
       (∀ w ∈ st.wallets, 0 ≤ w.balance) →
       ∀ w ∈ (ops.foldl applyBalanceOp st).wallets, 0 ≤ w.balance) := by
  refine ⟨?_, ?_, ?_⟩
  · intro st uid amt mode w hw hneg
    rw [update_balance_spec st uid amt mode w hw, if_pos hneg]
  · intro st uid amt mode w hw hnneg
    rw [update_balance_spec st uid amt mode w hw, if_neg hnneg]
  · intro st ops h
    exact foldl_balanceOps_nonneg ops st h

/-- C3 witness: on a wallet with balance 100, subtracting 140 is rejected with
the store unchanged, subtracting 40 stores exactly 60, and a concrete
operation sequence preserves non-negativity. -/
theorem C3_balance_nonneg_invariant_witness :
    WalletDB.update_balance storeBal100 "u1" 140 UpdateMode.subtract =
      (storeBal100,
       Except.error (PyError.walletError "Insufficient balance for this operation")) ∧
    (WalletDB.update_balance storeBal100 "u1" 40 UpdateMode.subtract).2 =
      Except.ok { walletBal100 with
        balance := WalletDB.new_balance walletBal100 40 UpdateMode.subtract } ∧
    ∀ w ∈ (([⟨"u1", 60, UpdateMode.add⟩, ⟨"u1", 200, UpdateMode.subtract⟩,
             ⟨"u1", 90, UpdateMode.subtract⟩] : List BalanceOp).foldl
        applyBalanceOp storeBal100).wallets, 0 ≤ w.balance :=
  ⟨C3_balance_nonneg_invariant.1 storeBal100 "u1" 140 UpdateMode.subtract
      walletBal100 (by decide) (by decide),
   C3_balance_nonneg_invariant.2.1 storeBal100 "u1" 40 UpdateMode.subtract
      walletBal100 (by decide) (by decide),
   C3_balance_nonneg_invariant.2.2 storeBal100 _ (by decide)⟩

/-- C10: `update_balance` modifies only the `balance` field — the updated
wallet keeps `user_id`, `currency`, `is_locked` and `is_active`, and every
other stored wallet is untouched — and it never consults `is_locked` or
`is_active`: with the same balance, a wallet whose lock and activity flags are
set to any values `l`, `a` produces the same error/success outcome, so a
locked or deactivated wallet is still mutated. -/
theorem C10_update_balance_frame :
    (∀ (st : Store) (uid : String) (amt : Int) (mode : UpdateMode) (w : WalletModel),
       WalletDB.get_by_user_id st uid = some w →
       ¬ WalletDB.new_balance w amt mode < 0 →
       WalletDB.update_balance st uid amt mode =
         (Store.setWalletById st w.id { w with balance := WalletDB.new_balance w amt mode },
          Except.ok { w with balance := WalletDB.new_balance w amt mode }) ∧
       ({ w with balance := WalletDB.new_balance w amt mode } : WalletModel).user_id = w.user_id ∧
       ({ w with balance := WalletDB.new_balance w amt mode } : WalletModel).currency = w.currency ∧
       ({ w with balance := WalletDB.new_balance w amt mode } : WalletModel).is_locked = w.is_locked ∧
       ({ w with balance := WalletDB.new_balance w amt mode } : WalletModel).is_active = w.is_active) ∧
    (∀ (st : Store) (uid : String) (amt : Int) (mode : UpdateMode) (w : WalletModel)
       (l a : Bool),
       WalletDB.get_by_user_id st uid = some w →
       (WalletDB.update_balance
          (Store.setWalletById st w.id { w with is_locked := l, is_active := a })
          uid amt mode).2 =
         (if WalletDB.new_balance w amt mode < 0 then
            Except.error (PyError.walletError "Insufficient balance for this operation")
          else
            Except.ok { w with balance := WalletDB.new_balance w amt mode,
                               is_locked := l, is_active := a })) := by
  constructor
  · intro st uid amt mode w hw hnneg
    exact ⟨by rw [update_balance_spec st uid amt mode w hw, if_neg hnneg],
           rfl, rfl, rfl, rfl⟩
  · intro st uid amt mode w l a hw
    have hwf : WalletDB.get_by_user_id
        (Store.setWalletById st w.id { w with is_locked := l, is_active := a }) uid
        = some { w with is_locked := l, is_active := a } :=
      get_by_user_id_setWalletById { w with is_locked := l, is_active := a } hw rfl
    rw [update_balance_spec _ uid amt mode _ hwf]
    rw [show WalletDB.new_balance { w with is_locked := l, is_active := a } amt mode
        = WalletDB.new_balance w amt mode from rfl]
    by_cases hnb : WalletDB.new_balance w amt mode < 0
    · rw [if_pos hnb, if_pos hnb]
    · rw [if_neg hnb, if_neg hnb]

/-- C10 witness: a locked and deactivated wallet with balance 100 is still
credited 250 by `update_balance`, and the frame conditions hold for a plain
subtraction. -/
theorem C10_update_balance_frame_witness :
    (WalletDB.update_balance storeBal100 "u1" 40 UpdateMode.subtract =
       (Store.setWalletById storeBal100 walletBal100.id
          { walletBal100 with balance := WalletDB.new_balance walletBal100 40 UpdateMode.subtract },
        Except.ok { walletBal100 with
          balance := WalletDB.new_balance walletBal100 40 UpdateMode.subtract }) ∧
     ({ walletBal100 with balance := WalletDB.new_balance walletBal100 40 UpdateMode.subtract }
        : WalletModel).user_id = walletBal100.user_id ∧
     ({ walletBal100 with balance := WalletDB.new_balance walletBal100 40 UpdateMode.subtract }
        : WalletModel).currency = walletBal100.currency ∧
     ({ walletBal100 with balance := WalletDB.new_balance walletBal100 40 UpdateMode.subtract }
        : WalletModel).is_locked = walletBal100.is_locked ∧
     ({ walletBal100 with balance := WalletDB.new_balance walletBal100 40 UpdateMode.subtract }
        : WalletModel).is_active = walletBal100.is_active) ∧
    (WalletDB.update_balance
       (Store.setWalletById storeBal100 walletBal100.id
         { walletBal100 with is_locked := true, is_active := false })
       "u1" 250 UpdateMode.add).2 =
      (if WalletDB.new_balance walletBal100 250 UpdateMode.add < 0 then
         Except.error (PyError.walletError "Insufficient balance for this operation")
       else
         Except.ok { walletBal100 with
                     balance := WalletDB.new_balance walletBal100 250 UpdateMode.add,
                     is_locked := true, is_active := false }) :=
  ⟨C10_update_balance_frame.1 storeBal100 "u1" 40 UpdateMode.subtract walletBal100
     (by decide) (by decide),
   C10_update_balance_frame.2 storeBal100 "u1" 250 UpdateMode.add walletBal100
     true false (by decide)⟩

/-- C2 counterexample: the claim concludes that replaying the same terminal
event N times yields exactly one balance mutation and N-1 `skipped` results.
Delivering the successful payment event for the pending 1000 NGN fund
transaction twice through `process_webhook` yields zero persisted balance
mutations and two generic `error` results: each delivery credits the balance
inside the session, then `_unlock_wallet_if_locked` raises `TypeError` and the
session rolls the writes back, so the transaction never turns terminal and no
delivery is ever skipped. -/
theorem C2_replay_counterexample :
    replayProcessN "hash" paymentEvent verifyOk 2 storeMidFund =
      (storeMidFund, List.replicate 2 (Except.ok
        { status := "error", message := "Webhook processing failed unexpectedly." })) ∧
    (WalletDB.get_by_user_id storeMidFund "u1").map WalletModel.balance = some 0 ∧
    ((replayProcessN "hash" paymentEvent verifyOk 2 storeMidFund).2.count
      (Except.ok { status := "skipped", message := "Transaction already processed." })) = 0 := by
  decide

/-- C2 (amended): both webhook processors treat a terminal transaction as a
pure no-op — a `skipped` result with the whole store (transactions, wallets,
lock flags, published fanout) unchanged — but the fund success path can never
produce such a terminal transaction: after the in-session status update and
balance credit, `_unlock_wallet_if_locked` raises `TypeError` (undeclared
`lock=` keyword), the session rolls the writes back and `process_webhook`
reports a generic `error`; hence replaying a successful payment event against
a pending transaction n times yields n `error` results and zero persisted
balance mutations with the store unchanged — not one mutation and n-1
skips. -/
theorem C2_terminal_skip_and_replay_amended :
    (∀ (st : Store) (d : WebhookData) (v : VerifyResult) (tx_ref fid s : String)
       (txn : TransactionModel),
       d.txRef = some tx_ref → d.flw_id = some fid → d.status = some s →
       TransactionDB.get_by_reference st tx_ref = some txn →
       (txn.status = TransactionStatus.success ∨ txn.status = TransactionStatus.failed) →
       FlutterWaveClient.payment_webhook_processor st d v =
         (st, Except.ok { status := "skipped",
                          message := (if txn.status == TransactionStatus.success
                                      then "Transaction already processed."
                                      else "Transaction already failed.") })) ∧
    (∀ (st : Store) (d : WebhookData) (inner : TransferInner) (tx_ref s : String)
       (meta_uid : Option String) (txn : TransactionModel),
       d.data = some inner → inner.reference = some tx_ref →
       inner.status = some s → inner.meta = some meta_uid →
       TransactionDB.get_by_reference st tx_ref = some txn →
       (txn.status = TransactionStatus.success ∨ txn.status = TransactionStatus.failed) →
       FlutterWaveClient.transfer_webhook_processor st d =
         (st, Except.ok { status := "skipped",
                          message := (if txn.status == TransactionStatus.success
                                      then "Transaction already processed."
                                      else "Transaction already failed.") })) ∧
    (∀ (webhook_hash : String) (st : Store) (d : WebhookData) (v : VerifyResult)
       (et tx_ref fid : String) (txn : TransactionModel) (n : Nat),
       FlutterWaveClient.validate_payload d = true →
       d.signature = some webhook_hash →
       d.event_type = some et →
       FlutterWaveClient.valid_event_types.contains et = true →
       strContains et "_TRANSACTION" = true →
       d.txRef = some tx_ref → d.flw_id = some fid → d.status = some "successful" →
       TransactionDB.get_by_reference st tx_ref = some txn →
       txn.status = TransactionStatus.pending →
       (v.status == "success" && decide (txn.amount ≤ v.amount) &&
          v.currency == txn.currency) = true →
       replayProcessN webhook_hash d v n st =
         (st, List.replicate n (Except.ok
           { status := "error", message := "Webhook processing failed unexpectedly." }))) := by
  refine ⟨?_, ?_, ?_⟩
  · intro st d v tx_ref fid s txn h1 h2 h3 href hterm
    exact payment_skip st d v tx_ref fid s txn h1 h2 h3 href hterm
  · intro st d inner tx_ref s meta_uid txn h0 h1 h2 h3 href hterm
    exact transfer_skip st d inner tx_ref s meta_uid txn h0 h1 h2 h3 href hterm
  · intro webhook_hash st d v et tx_ref fid txn n hval hsig het hin hpay h1 h2 h3 href hpend hacc
    exact replayProcess_fixed webhook_hash d v st _
      (process_webhook_success_aborts webhook_hash st d v et tx_ref fid txn
        hval hsig het hin hpay h1 h2 h3 href hpend hacc) n

/-- C2 witness: on concrete stores, a terminal payment event and a terminal
transfer event are both skipped with the store unchanged, and delivering the
same successful payment event twice through `process_webhook` leaves the
mid-fund store fixed with two `error` results. -/
theorem C2_terminal_skip_and_replay_amended_witness :
    FlutterWaveClient.payment_webhook_processor storeTerminal paymentEvent verifyOk =
      (storeTerminal, Except.ok { status := "skipped",
                                  message := (if ({ txnPending with status := "success" }
                                        : TransactionModel).status == TransactionStatus.success
                                     then "Transaction already processed."
                                     else "Transaction already failed.") }) ∧
    FlutterWaveClient.transfer_webhook_processor storeTerminal unsignedTransferEvent =
      (storeTerminal, Except.ok { status := "skipped",
                                  message := (if ({ txnPending with status := "success" }
                                        : TransactionModel).status == TransactionStatus.success
                                     then "Transaction already processed."
                                     else "Transaction already failed.") }) ∧
    replayProcessN "hash" paymentEvent verifyOk 2 storeMidFund =
      (storeMidFund, List.replicate 2 (Except.ok
        { status := "error", message := "Webhook processing failed unexpectedly." })) :=
  ⟨C2_terminal_skip_and_replay_amended.1 storeTerminal paymentEvent verifyOk "r1" "f1"
      "successful" { txnPending with status := "success" }
      rfl rfl rfl (by decide) (Or.inl rfl),
   C2_terminal_skip_and_replay_amended.2.1 storeTerminal unsignedTransferEvent
      transferInnerOk "r1" "SUCCESSFUL" (some "u1") { txnPending with status := "success" }
      rfl rfl rfl rfl (by decide) (Or.inl rfl),
   C2_terminal_skip_and_replay_amended.2.2 "hash" storeMidFund paymentEvent verifyOk
      "CARD_TRANSACTION" "r1" "f1" txnPending 2
      (by decide) rfl rfl (by decide) (by decide) rfl rfl rfl (by decide) rfl (by decide)⟩

/-- C4 counterexample: the claim says an amount mismatch between the pending
record (1000 NGN) and the provider's verified record (500 NGN) resolves the
transaction to `failed` with the wallet lock released.  In the code the
processor returns an `error` response and changes nothing: the transaction is
still `pending` (not `failed`) and the wallet is still locked. -/
theorem C4_mismatch_counterexample :
    FlutterWaveClient.payment_webhook_processor storeMidFund paymentEvent verifyLow =
      (storeMidFund,
       Except.ok { status := "error", message := "Verification mismatch or failed." }) ∧
    (TransactionDB.get_by_reference storeMidFund "r1").map TransactionModel.status =
      some "pending" ∧
    some "pending" ≠ some TransactionStatus.failed ∧
    (WalletDB.get_by_user_id storeMidFund "u1").map WalletModel.is_locked = some true := by
  decide

/-- C4 (amended): for every pending fund transaction whose provider-verified
record fails the acceptance check (verification status not `success`, verified
amount **lower** than the local amount, or differing currency), the payment
processor returns an `error` result and takes no state action at all: the
mismatching amount is never applied, but the transaction stays `pending` and
the wallet lock is not released.  (A verified amount exceeding the local
amount passes the `>=` acceptance check and is not treated as a mismatch.) -/
theorem C4_mismatch_amended :
    ∀ (st : Store) (d : WebhookData) (v : VerifyResult) (tx_ref fid : String)
      (txn : TransactionModel),
      d.txRef = some tx_ref → d.flw_id = some fid → d.status = some "successful" →
      TransactionDB.get_by_reference st tx_ref = some txn →
      txn.status = TransactionStatus.pending →
      (v.status == "success" && decide (txn.amount ≤ v.amount) &&
        v.currency == txn.currency) = false →
      FlutterWaveClient.payment_webhook_processor st d v =
        (st, Except.ok { status := "error", message := "Verification mismatch or failed." }) := by
  intro st d v tx_ref fid txn h1 h2 h3 href hpend hacc
  unfold FlutterWaveClient.payment_webhook_processor
  rw [h1, h2, h3]
  dsimp only
  simp only [href, hpend]
  simp only [show (TransactionStatus.pending == TransactionStatus.success) = false from rfl,
    show (TransactionStatus.pending == TransactionStatus.failed) = false from rfl,
    show (TransactionStatus.pending != TransactionStatus.pending) = false from rfl,
    show ("successful" == "successful") = true from rfl,
    Bool.false_eq_true, if_false, if_true]
  unfold FlutterWaveClient.handle_payment_success
  rw [hacc]
  simp

/-- C4 witness: the amended mismatch behaviour instantiated on the mid-fund
store with a verified amount of 500 against a pending amount of 1000. -/
theorem C4_mismatch_amended_witness :
    FlutterWaveClient.payment_webhook_processor storeMidFund paymentEvent verifyLow =
      (storeMidFund,
       Except.ok { status := "error", message := "Verification mismatch or failed." }) :=
  C4_mismatch_amended storeMidFund paymentEvent verifyLow "r1" "f1" txnPending
    rfl rfl rfl (by decide) rfl (by decide)

/-- C7: the fund success path never completes in the program.  At the failing
input — a successful payment webhook whose verified record matches the pending
1000 NGN fund transaction — `_handle_payment_success` marks the transaction
`success` and credits the verified amount in-session, but then
`_unlock_wallet_if_locked` raises `TypeError` (undeclared `lock=` keyword);
`process_webhook` rolls the session back and returns a generic `error`, so the
wallet balance never durably increases by the verified amount: it stays 0. -/
theorem C7_success_path_never_persists :
    FlutterWaveClient.handle_payment_success storeMidFund txnPending verifyOk =
      ({ storeMidFund with
           transactions := [{ txnPending with status := "success" }],
           wallets := [{ walletLocked with balance := 1000 }] },
       Except.error
         (PyError.typeError "toggle_wallet_lock got an unexpected keyword argument lock")) ∧
    FlutterWaveClient.process_webhook "hash" storeMidFund paymentEvent verifyOk =
      (storeMidFund, Except.ok
        { status := "error", message := "Webhook processing failed unexpectedly." }) ∧
    (WalletDB.get_by_user_id storeMidFund "u1").map WalletModel.balance = some 0 := by
  decide

/-- C5: every fund request on an unlocked wallet dies at the acquire call
`toggle_wallet_lock(user.id, lock=True)` (`app/api/v1/wallet.py` line 130)
with a `TypeError` for the undeclared keyword — before the gateway is called,
before the `try` block, and before the lock is ever taken — so the error
surfaces with `is_locked` still false and the no-payment-link error path the
claim cites is unreachable.  Even the except clause the claim points at would
perform no release: for the no-link `PaymentFailedError` (raised with the
class defaults, `unlock_wallet = false`) it re-raises without any unlock
attempt. -/
theorem C5_fund_flow_lock_never_acquired :
    fund_wallet storeClean "u1" 1000 "NGN" (GatewayPaymentResult.response "r1" "t0" "") =
      (storeClean, Except.error
        (PyError.typeError "toggle_wallet_lock got an unexpected keyword argument lock")) ∧
    (WalletDB.get_by_user_id storeClean "u1").map WalletModel.is_locked = some false ∧
    fund_wallet_except storeClean "u1"
      (PyError.paymentFailedError "Payment link not provided by Flutterwave." "u1" false) =
      (storeClean, Except.error
        (PyError.paymentFailedError "Payment link not provided by Flutterwave." "u1" false)) := by
  decide

/-- C6 counterexample: `storeMidFund` already holds a transaction with
reference `r1`; creating another transaction with reference `r1` does not
fail — it inserts a second record, so the store ends with two transactions
carrying the same reference and its transaction list has changed. -/
theorem C6_duplicate_reference_counterexample :
    ((TransactionDB.create storeMidFund dupRefInput).1.transactions.filter
      (fun t => t.reference == some "r1")).length = 2 ∧
    (TransactionDB.create storeMidFund dupRefInput).1.transactions ≠
      storeMidFund.transactions := by decide

/-- C6 (amended): `TransactionDB.create` (the inherited `BaseDB.create`)
performs no duplicate-reference check — it always appends the new record, so a
create whose reference collides with a stored transaction succeeds and leaves
two transactions with that reference — and `init_indexes` creates unique
indexes only on `users.email` and `wallets.user_id`, none on
`transactions.reference`. -/
theorem C6_duplicate_reference_not_rejected :
    (∀ (st : Store) (t : TransactionInput),
       (TransactionDB.create st t).1.transactions = st.transactions ++
         [{ id := st.next_id, user_id := t.user_id, wallet_id := t.wallet_id,
            amount := t.amount, currency := t.currency, type := t.type,
            status := t.status, reference := t.reference, timestamp := t.timestamp }]) ∧
    ("transactions", "reference") ∉ init_indexes_unique := by
  constructor
  · intro st t
    rfl
  · decide

/-- C8: a transfer event whose inner `data` dict is complete but whose
top-level `signature` key is absent passes `_validate_payload` (which does not
require `signature` for transfer events), after which `process_webhook`
evaluates `data["signature"]` outside its `try` block and raises `KeyError`
instead of returning an `error` result; the store is untouched. -/
theorem C8_unsigned_transfer_raises_keyerror :
    FlutterWaveClient.validate_payload unsignedTransferEvent = true ∧
    FlutterWaveClient.process_webhook "hash" storeClean unsignedTransferEvent verifyOk =
      (storeClean, Except.error (PyError.keyError "signature")) := by decide

/-- C9: the airtime purchase flow never creates any transaction record.  On a
funded wallet it dies at the lock call
`toggle_wallet_lock(user_id=user.id, lock=True)` (`app/api/v1/airtime.py`
line 95) with a `TypeError` for the undeclared keyword, before the `try`
block: the store is unchanged, the wallet left unlocked and nothing inserted.
Independently, the record construction it never reaches would evaluate
`TransactionType.AIRTIME_PURCHASE.value`, an attribute the enum (credit,
debit, fund, withdraw) does not declare, raising `AttributeError` — either
way no transaction of type `airtime_purchase` ever exists. -/
theorem C9_airtime_purchase_type_missing :
    TransactionType.attr "AIRTIME_PURCHASE" = none ∧
    TransactionType.members.map (fun p => p.2) = ["credit", "debit", "fund", "withdraw"] ∧
    purchase_airtime storeRich "u1" 1000 true "success" (some "req1") "ok" =
      (storeRich, Except.error
        (PyError.typeError "toggle_wallet_lock got an unexpected keyword argument lock")) ∧
    (purchase_airtime storeRich "u1" 1000 true "success" (some "req1") "ok").1.transactions
      = [] ∧
    (WalletDB.get_by_user_id
      (purchase_airtime storeRich "u1" 1000 true "success" (some "req1") "ok").1 "u1").map
      WalletModel.is_locked = some false := by
  decide
